import Mathlib

/-!
Shallow embedding of the agent-orchestration core of the
openai-realtime-agents repository, together with proofs of the
specification's testable properties.

The embedding covers:
* the Transcript Store (TranscriptContext: addTranscriptMessage,
  updateTranscriptMessage, addTranscriptBreadcrumb,
  toggleTranscriptItemExpand, updateTranscriptItem);
* the session-history handler handleTranscriptionCompleted;
* the supervisor escalation loop (fetchResponsesMessage scripted,
  getToolResponse, handleToolCalls, getNextResponseFromSupervisor);
* the moderation guardrail (runGuardrailClassifier,
  createModerationGuardrail's execute);
* the material-ordering validator (validateMaterialOrder's execute).

Conventions: effectful TypeScript is translated to explicit state
passing.  Network requests are scripted: each call of the responses
endpoint consumes the next entry of an explicit response list, and the
guardrail classifier's fetch outcome is an explicit parameter.  Console
output is modelled as a list of emitted log strings returned next to the
new state.  Nondeterministic environment reads (timestamps, uuids) are
explicit arguments.
-/

/-- Result of a guardrail classification attached to a transcript item
(status, category, rationale, optional testText), as used by the
handlers in useHandleSessionHistory. -/
structure GuardrailResultApp where
  status : String
  category : String
  rationale : String
  testText : Option String
deriving DecidableEq, Repr

/-- A transcript entry, following the TranscriptItem shape constructed in
TranscriptContext.  The breadcrumb data payload is opaque to every
operation, so it is modelled by an optional opaque string. -/
structure TranscriptItem where
  itemId : String
  type : String
  role : Option String
  title : Option String
  data : Option String
  expanded : Bool
  timestamp : String
  createdAtMs : Nat
  status : String
  isHidden : Bool
  guardrailResult : Option GuardrailResultApp
deriving DecidableEq, Repr

/-- Boolean test used by addTranscriptMessage's duplicate check: an entry
with the given itemId that is a MESSAGE. -/
def isMessageWithId (itemId : String) (log : TranscriptItem) : Bool :=
  log.itemId == itemId && log.type == "MESSAGE"

/-- The newItem object addTranscriptMessage builds before appending. -/
def newMessageItem (itemId : String) (role : String) (text : String)
    (isHidden : Bool) (ts : String) (nowMs : Nat) : TranscriptItem :=
  { itemId := itemId
    type := "MESSAGE"
    role := some role
    title := some text
    data := none
    expanded := false
    timestamp := ts
    createdAtMs := nowMs
    status := "IN_PROGRESS"
    isHidden := isHidden
    guardrailResult := none }

/-- addTranscriptMessage from TranscriptContext.  If a MESSAGE with the
same itemId already exists the state is unchanged and a console warning
is emitted; otherwise a new IN_PROGRESS MESSAGE entry is appended.  The
timestamp and createdAtMs environment reads are explicit arguments.
Returns the new item list together with the emitted console output. -/
def addTranscriptMessage (prev : List TranscriptItem) (itemId : String)
    (role : String) (text : String) (isHidden : Bool)
    (ts : String) (nowMs : Nat) : List TranscriptItem × List String :=
  if prev.any (isMessageWithId itemId) then
    (prev,
      ["[addTranscriptMessage] skipping; message already exists for itemId="
        ++ itemId ++ ", role=" ++ role ++ ", text=" ++ text])
  else
    (prev ++ [newMessageItem itemId role text isHidden ts nowMs], [])

/-- Per-item body of updateTranscriptMessage's map: the MESSAGE with the
given itemId has its title appended to (append = true) or replaced
(append = false); every other item is returned unchanged. -/
def updateMessageItem (itemId : String) (newText : String) (append : Bool)
    (item : TranscriptItem) : TranscriptItem :=
  if item.itemId == itemId && item.type == "MESSAGE" then
    { item with
        title := some (if append then item.title.getD "" ++ newText else newText) }
  else item

/-- updateTranscriptMessage from TranscriptContext.  Maps over the items;
the source emits no console output on this path, in particular not when
no item matches. -/
def updateTranscriptMessage (prev : List TranscriptItem) (itemId : String)
    (newText : String) (append : Bool) : List TranscriptItem × List String :=
  (prev.map (updateMessageItem itemId newText append), [])

/-- addTranscriptBreadcrumb from TranscriptContext: always appends a new
DONE BREADCRUMB entry whose itemId is derived from a fresh uuid. -/
def addTranscriptBreadcrumb (prev : List TranscriptItem) (title : String)
    (dataPayload : Option String) (uuid : String) (ts : String) (nowMs : Nat) :
    List TranscriptItem × List String :=
  (prev ++ [{ itemId := "breadcrumb-" ++ uuid
              type := "BREADCRUMB"
              role := none
              title := some title
              data := dataPayload
              expanded := false
              timestamp := ts
              createdAtMs := nowMs
              status := "DONE"
              isHidden := false
              guardrailResult := none }], [])

/-- Per-item body of toggleTranscriptItemExpand's map. -/
def toggleItem (itemId : String) (log : TranscriptItem) : TranscriptItem :=
  if log.itemId == itemId then { log with expanded := !log.expanded } else log

/-- toggleTranscriptItemExpand from TranscriptContext: flips the expanded
flag of every item with the given itemId. -/
def toggleTranscriptItemExpand (prev : List TranscriptItem) (itemId : String) :
    List TranscriptItem × List String :=
  (prev.map (toggleItem itemId), [])

/-- The partial update object passed to updateTranscriptItem.  The code
base only ever patches the status and guardrailResult fields; a field
that is absent from the update object leaves the item's field unchanged,
mirroring the object-spread merge in the source. -/
structure TranscriptItemPatch where
  status : Option String := none
  guardrailResult : Option GuardrailResultApp := none
deriving DecidableEq, Repr

/-- Object-spread merge of a patch into an item. -/
def applyPatch (item : TranscriptItem) (patch : TranscriptItemPatch) :
    TranscriptItem :=
  { item with
      status := patch.status.getD item.status
      guardrailResult :=
        match patch.guardrailResult with
        | some g => some g
        | none => item.guardrailResult }

/-- Per-item body of updateTranscriptItem's map. -/
def patchItem (itemId : String) (patch : TranscriptItemPatch)
    (item : TranscriptItem) : TranscriptItem :=
  if item.itemId == itemId then applyPatch item patch else item

/-- updateTranscriptItem from TranscriptContext: merges the updated
properties into every item with the given itemId. -/
def updateTranscriptItem (prev : List TranscriptItem) (itemId : String)
    (patch : TranscriptItemPatch) : List TranscriptItem × List String :=
  (prev.map (patchItem itemId patch), [])

/-- First entry with the given itemId, the find the transcription
handler performs on its observed snapshot. -/
def findItem (items : List TranscriptItem) (itemId : String) :
    Option TranscriptItem :=
  items.find? (fun i => i.itemId == itemId)

/-- handleTranscriptionCompleted from useHandleSessionHistory.  The
transcript argument models item.transcript: none for an absent field,
some s for a string value; absent and empty are both falsy.  The items
argument is the transcript state the handler observes; the three store
updates are applied to it in source order, while the guardrail-pending
check reads the observed snapshot, as the handler does. -/
def handleTranscriptionCompleted (items : List TranscriptItem)
    (itemId : String) (transcript : Option String) : List TranscriptItem :=
  let finalTranscript :=
    if transcript = none || transcript = some "" || transcript = some "\n" then
      "[inaudible]"
    else transcript.getD ""
  if itemId == "" then items
  else
    let items1 := (updateTranscriptMessage items itemId finalTranscript false).1
    let transcriptItem := findItem items itemId
    let items2 := (updateTranscriptItem items1 itemId { status := some "DONE" }).1
    match transcriptItem with
    | some it =>
      if (it.guardrailResult.map (·.status)) = some "IN_PROGRESS" then
        (updateTranscriptItem items2 itemId
          { guardrailResult :=
              some { status := "DONE", category := "NONE", rationale := "",
                     testText := none } }).1
      else items2
    | none => items2

/-- First MESSAGE entry with the given itemId, the entry the store
operations address. -/
def findMessage (items : List TranscriptItem) (itemId : String) :
    Option TranscriptItem :=
  items.find? (isMessageWithId itemId)

/-- A content part of a responses-API message item (type tag and text),
as consumed by handleToolCalls when building the final answer. -/
structure ContentPart where
  type : String
  text : String
deriving DecidableEq, Repr

/-- An output item of a responses-API response: a function call, a
message, or anything else (only the type tag matters to the loop). -/
inductive OutputItem where
  | functionCall (name : String) (callId : String) (arguments : String)
  | message (content : List ContentPart)
  | other (type : String)
deriving DecidableEq, Repr

/-- A response from the /api/responses endpoint as observed by the
escalation loop: either fetchResponsesMessage's error marker (error set)
or a successful completion with its output items. -/
structure SupResponse where
  error : Bool
  output : List OutputItem
deriving DecidableEq, Repr

/-- The item.type = function_call filter of handleToolCalls. -/
def isFunctionCall : OutputItem → Bool
  | .functionCall _ _ _ => true
  | _ => false

/-- Text of one assistant message: its output_text parts joined. -/
def messageText (content : List ContentPart) : String :=
  String.join ((content.filter fun c => c.type == "output_text").map fun c => c.text)

/-- Final answer built by handleToolCalls when a response holds no
function calls: message items mapped to their output_text and joined
with newlines. -/
def finalTextOf (items : List OutputItem) : String :=
  String.intercalate "\n"
    (items.filterMap fun i =>
      match i with
      | .message content => some (messageText content)
      | _ => none)

/-- The local sample-data results returned by getToolResponse, one
constructor per branch of its switch. -/
inductive ToolRes where
  | accountInfo
  | policyDocs
  | storeLocations
  | defaultResult
deriving DecidableEq, Repr

/-- getToolResponse from supervisorAgent: fixed local dispatch keyed by
function name, with a default result for unknown names. -/
def getToolResponse (fName : String) : ToolRes :=
  if fName == "getContractorAccountInfo" then .accountInfo
  else if fName == "lookupProcurementPolicy" then .policyDocs
  else if fName == "findVendorsByLocation" then .storeLocations
  else .defaultResult

/-- The local dispatches performed for the function calls of one
response, in order: each function_call item is executed via
getToolResponse. -/
def dispatchesOf (items : List OutputItem) : List (String × ToolRes) :=
  items.filterMap fun i =>
    match i with
    | .functionCall name _ _ => some (name, getToolResponse name)
    | _ => none

/-- Core of the escalation loop.  The list holds the current response
followed by the scripted results of the follow-up fetches; each loop
iteration consumes one entry.  Returns none if the loop would fetch past
the end of the script, some (Except.error _) for the generic error
result, and some (Except.ok (text, trace)) on termination, where trace
records every local tool dispatch in execution order. -/
def handleToolCallsAux :
    List SupResponse → Option (Except String (String × List (String × ToolRes)))
  | [] => none
  | resp :: script =>
    if resp.error then some (Except.error "Something went wrong.")
    else
      let functionCalls := resp.output.filter isFunctionCall
      if functionCalls.isEmpty then
        some (Except.ok (finalTextOf resp.output, []))
      else
        match handleToolCallsAux script with
        | none => none
        | some (Except.error e) => some (Except.error e)
        | some (Except.ok (txt, ds)) =>
          some (Except.ok (txt, dispatchesOf resp.output ++ ds))

/-- handleToolCalls from supervisorAgent: iterates from the given
response, consuming the scripted follow-up fetch results. -/
def handleToolCalls (response : SupResponse) (script : List SupResponse) :
    Option (Except String (String × List (String × ToolRes))) :=
  handleToolCallsAux (response :: script)

/-- The resolved value of the getNextResponseFromSupervisor tool: the
structured error marker or a textual next response. -/
inductive SupervisorResult where
  | errorResult
  | nextResponse (text : String)
deriving DecidableEq, Repr

/-- getNextResponseFromSupervisor's execute: the initial fetch consumes
the first scripted response; on its error marker the structured error is
returned, otherwise handleToolCalls runs on the remaining script and its
error or final text is propagated. -/
def getNextResponseFromSupervisor (script : List SupResponse) :
    Option SupervisorResult :=
  match script with
  | [] => none
  | response :: rest =>
    if response.error then some .errorResult
    else
      match handleToolCalls response rest with
      | none => none
      | some (Except.error _) => some .errorResult
      | some (Except.ok (txt, _)) => some (.nextResponse txt)

/-- A scripted response holding exactly one function-call item and no
message items, the shape of the supervisor-loop termination property. -/
def mkFnCallResponse (name : String) (callId : String) (arguments : String) :
    SupResponse :=
  { error := false, output := [.functionCall name callId arguments] }

/-- The classifier output parsed by runGuardrailClassifier (category,
rationale, and the testText it attaches). -/
structure GuardrailOutput where
  moderationRationale : String
  moderationCategory : String
  testText : Option String := none
deriving DecidableEq, Repr

/-- Outcome of the classifier fetch inside runGuardrailClassifier: HTTP
non-success, a response whose output fails schema parsing, or a parsed
classification. -/
inductive ClassifierFetch where
  | notOk
  | parseFailure
  | parsed (out : GuardrailOutput)
deriving DecidableEq, Repr

/-- runGuardrailClassifier from guardrails.ts: rejects on a non-success
status or a parse failure, otherwise resolves to the parsed output with
testText set to the classified message. -/
def runGuardrailClassifier (message : String) (companyName : String)
    (fetchResult : ClassifierFetch) : Except String GuardrailOutput :=
  match fetchResult with
  | .notOk => Except.error "Error with runGuardrailClassifier."
  | .parseFailure => Except.error "Failed to parse guardrail output."
  | .parsed out => Except.ok { out with testText := some message }

/-- The outputInfo field of a guardrail execution result: a successful
classification, or the error marker written by the catch branch. -/
inductive GuardrailOutputInfo where
  | classification (out : GuardrailOutput)
  | guardrailFailed
deriving DecidableEq, Repr

/-- Result of one moderation-guardrail execution. -/
structure RealtimeOutputGuardrailResult where
  tripwireTriggered : Bool
  outputInfo : GuardrailOutputInfo
deriving DecidableEq, Repr

/-- The execute method of createModerationGuardrail: on a resolved
classification the tripwire is the category being different from NONE;
on any rejection the catch branch resolves with tripwireTriggered false
and the guardrail_failed error marker. -/
def moderationGuardrailExecute (companyName : String) (agentOutput : String)
    (fetchResult : ClassifierFetch) : RealtimeOutputGuardrailResult :=
  match runGuardrailClassifier agentOutput companyName fetchResult with
  | Except.ok res =>
    { tripwireTriggered := res.moderationCategory != "NONE"
      outputInfo := .classification res }
  | Except.error _ =>
    { tripwireTriggered := false
      outputInfo := .guardrailFailed }

/-- Character-list prefix match used to model the JavaScript
String.prototype.includes containment test. -/
def matchesAt : List Char → List Char → Bool
  | [], _ => true
  | _ :: _, [] => false
  | c :: cs, d :: ds => c == d && matchesAt cs ds

/-- Substring occurrence over character lists. -/
def hasSubstring : List Char → List Char → Bool
  | [], sub => sub.isEmpty
  | c :: rest, sub => matchesAt sub (c :: rest) || hasSubstring rest sub

/-- JavaScript string containment s.includes(sub). -/
def includesStr (s : String) (sub : String) : Bool :=
  hasSubstring s.toList sub.toList

/-- JavaScript toLowerCase over the character list of a string. -/
def lowerStr (s : String) : String :=
  String.mk (s.toList.map Char.toLower)

/-- Specifications argument of validateMaterialOrder. -/
structure MaterialSpecifications where
  size : Option String := none
  grade : Option String := none
  rating : Option String := none
deriving DecidableEq, Repr

/-- Project-info argument of validateMaterialOrder. -/
structure MaterialProjectInfo where
  project_name : Option String := none
  job_site_address : Option String := none
  delivery_date : Option String := none
  budget_code : Option String := none
deriving DecidableEq, Repr

/-- Input of the validateMaterialOrder tool; optional object arguments
are Options. -/
structure MaterialOrderInput where
  material_type : String
  specifications : Option MaterialSpecifications := none
  quantity : Int
  units : String
  project_info : Option MaterialProjectInfo := none
deriving DecidableEq, Repr

/-- The validationResults record mutated by validateMaterialOrder. -/
structure ValidationResults where
  isValid : Bool
  warnings : List String
  suggestions : List String
  missing_fields : List String
deriving DecidableEq, Repr

/-- The value returned by validateMaterialOrder's execute. -/
structure MaterialOrderOutput where
  validation_result : ValidationResults
  estimated_cost : Int
  availability : String
deriving DecidableEq, Repr

/-- validateMaterialOrder's execute from materialOrdering.ts, with the
sequential mutations of validationResults translated to a chain of
updates in source order: missing size specification, missing delivery
address, missing delivery date, then the EMT-specific warning (only for
0 < quantity < 10) and suggestion, then the wire-specific checks. -/
def validateMaterialOrder (input : MaterialOrderInput) : MaterialOrderOutput :=
  let r0 : ValidationResults :=
    { isValid := true, warnings := [], suggestions := [], missing_fields := [] }
  let r1 :=
    if (input.specifications.bind (·.size)).isNone then
      { r0 with missing_fields := r0.missing_fields ++ ["size specification"]
                isValid := false }
    else r0
  let r2 :=
    if (input.project_info.bind (·.job_site_address)).isNone then
      { r1 with missing_fields := r1.missing_fields ++ ["delivery address"]
                isValid := false }
    else r1
  let r3 :=
    if (input.project_info.bind (·.delivery_date)).isNone then
      { r2 with missing_fields := r2.missing_fields ++ ["delivery date"]
                isValid := false }
    else r2
  let r4 :=
    if includesStr (lowerStr input.material_type) "emt" then
      let r3a :=
        if 0 < input.quantity && input.quantity < 10 then
          { r3 with warnings := r3.warnings ++
              ["EMT conduit comes in 10ft sticks. You may want to order 10ft minimum."] }
        else r3
      { r3a with suggestions := r3a.suggestions ++
          ["EMT conduit is sold in 10-foot lengths. Consider ordering in multiples of 10."] }
    else r3
  let r5 :=
    if includesStr (lowerStr input.material_type) "wire" then
      let r4a :=
        if (input.specifications.bind (·.grade)).isNone then
          { r4 with missing_fields := r4.missing_fields ++
              ["wire type (THHN, Romex, etc.)"]
                    isValid := false }
        else r4
      if (input.specifications.bind (·.rating)).isNone then
        { r4a with missing_fields := r4a.missing_fields ++ ["voltage rating"] }
      else r4a
    else r4
  { validation_result := r5
    estimated_cost := input.quantity * 15
    availability := "In stock at 3 vendors" }

/-- A transcript-store operation of the delta-accumulation property: a
streaming delta (updateTranscriptMessage with append) or a message
insert (addTranscriptMessage). -/
inductive TranscriptOp where
  | delta (itemId : String) (fragment : String)
  | insert (itemId : String) (role : String) (text : String)
      (isHidden : Bool) (ts : String) (nowMs : Nat)
deriving DecidableEq, Repr

/-- Application of one operation to the store. -/
def applyTranscriptOp (items : List TranscriptItem) :
    TranscriptOp → List TranscriptItem
  | .delta itemId fragment => (updateTranscriptMessage items itemId fragment true).1
  | .insert itemId role text isHidden ts nowMs =>
    (addTranscriptMessage items itemId role text isHidden ts nowMs).1

/-- Application of a sequence of operations, in order. -/
def applyTranscriptOps (items : List TranscriptItem)
    (ops : List TranscriptOp) : List TranscriptItem :=
  ops.foldl applyTranscriptOp items

/-- The delta fragments a sequence of operations carries for one id, in
order. -/
def deltasFor (itemId : String) (ops : List TranscriptOp) : List String :=
  ops.filterMap fun op =>
    match op with
    | .delta i f => if i == itemId then some f else none
    | _ => none

/-- Whether an operation is an insert addressing the given id. -/
def insertsOn (itemId : String) : TranscriptOp → Bool
  | .insert i _ _ _ _ _ => i == itemId
  | _ => false

/-- A concrete MESSAGE entry used to instantiate the proved properties. -/
def sampleMsg : TranscriptItem :=
  { itemId := "item-1", type := "MESSAGE", role := some "user",
    title := some "hi", data := none, expanded := false, timestamp := "t",
    createdAtMs := 0, status := "IN_PROGRESS", isHidden := false,
    guardrailResult := none }

/-- A concrete assistant MESSAGE entry with a pending guardrail result. -/
def samplePendingMsg : TranscriptItem :=
  { itemId := "item-2", type := "MESSAGE", role := some "assistant",
    title := some "answer", data := none, expanded := false, timestamp := "t",
    createdAtMs := 1, status := "IN_PROGRESS", isHidden := false,
    guardrailResult :=
      some { status := "IN_PROGRESS", category := "NONE", rationale := "",
             testText := none } }

/-- An order for the given material type with quantity 100, the given
units, and neither specifications nor project info supplied. -/
def order100 (mt : String) (units : String) : MaterialOrderInput :=
  { material_type := mt, quantity := 100, units := units }

/-- Concatenation of a list of text fragments, in order. -/
def joinAll : List String → String
  | [] => ""
  | s :: rest => s ++ joinAll rest

theorem find?_map_pres {α : Type} (f : α → α) (p : α → Bool)
    (hf : ∀ x, p (f x) = p x) (l : List α) :
    (l.map f).find? p = (l.find? p).map f := by
  induction l with
  | nil => rfl
  | cons x xs ih =>
    by_cases h : p x = true
    · rw [List.map_cons, List.find?_cons_of_pos _ (by rw [hf]; exact h),
        List.find?_cons_of_pos _ h, Option.map_some']
    · rw [List.map_cons, List.find?_cons_of_neg _ (by rw [hf]; exact h),
        List.find?_cons_of_neg _ h, ih]

theorem find?_append_of_none {α : Type} (p : α → Bool) (l : List α) (x : α)
    (hx : p x = false) : (l ++ [x]).find? p = l.find? p := by
  rw [List.find?_append]
  have : List.find? p [x] = none := by
    rw [List.find?_cons_of_neg _ (by rw [hx]; exact Bool.false_ne_true), List.find?_nil]
  rw [this, Option.or_none]

theorem updateMessageItem_itemId (itemId newText : String) (append : Bool)
    (x : TranscriptItem) :
    (updateMessageItem itemId newText append x).itemId = x.itemId := by
  unfold updateMessageItem; split <;> rfl

theorem updateMessageItem_type (itemId newText : String) (append : Bool)
    (x : TranscriptItem) :
    (updateMessageItem itemId newText append x).type = x.type := by
  unfold updateMessageItem; split <;> rfl

theorem updateMessageItem_guardrailResult (itemId newText : String)
    (append : Bool) (x : TranscriptItem) :
    (updateMessageItem itemId newText append x).guardrailResult
      = x.guardrailResult := by
  unfold updateMessageItem; split <;> rfl

theorem updateMessageItem_of_ne (itemId newText : String) (append : Bool)
    (x : TranscriptItem) (h : x.itemId ≠ itemId) :
    updateMessageItem itemId newText append x = x := by
  unfold updateMessageItem
  rw [if_neg]
  simp [beq_eq_false_iff_ne.mpr h]

theorem updateMessageItem_of_match (itemId newText : String) (append : Bool)
    (x : TranscriptItem) (h : isMessageWithId itemId x = true) :
    updateMessageItem itemId newText append x
      = { x with title := some (if append then x.title.getD "" ++ newText
                                else newText) } := by
  unfold updateMessageItem
  unfold isMessageWithId at h
  rw [if_pos h]

theorem patchItem_itemId (itemId : String) (patch : TranscriptItemPatch)
    (x : TranscriptItem) : (patchItem itemId patch x).itemId = x.itemId := by
  unfold patchItem applyPatch; split <;> rfl

theorem patchItem_type (itemId : String) (patch : TranscriptItemPatch)
    (x : TranscriptItem) : (patchItem itemId patch x).type = x.type := by
  unfold patchItem applyPatch; split <;> rfl

theorem patchItem_title (itemId : String) (patch : TranscriptItemPatch)
    (x : TranscriptItem) : (patchItem itemId patch x).title = x.title := by
  unfold patchItem applyPatch; split <;> rfl

theorem patchItem_of_ne (itemId : String) (patch : TranscriptItemPatch)
    (x : TranscriptItem) (h : x.itemId ≠ itemId) :
    patchItem itemId patch x = x := by
  unfold patchItem
  rw [if_neg]
  simp [beq_eq_false_iff_ne.mpr h]

theorem patchItem_of_eq (itemId : String) (patch : TranscriptItemPatch)
    (x : TranscriptItem) (h : x.itemId = itemId) :
    patchItem itemId patch x = applyPatch x patch := by
  unfold patchItem
  rw [if_pos]
  exact beq_iff_eq.mpr h

theorem toggleItem_of_ne (itemId : String) (x : TranscriptItem)
    (h : x.itemId ≠ itemId) : toggleItem itemId x = x := by
  unfold toggleItem
  rw [if_neg]
  simp [beq_eq_false_iff_ne.mpr h]

/-- C2: inserting a message twice with the same id is a no-op the second
time: the resulting transcript state equals the state after the first
insert alone, whatever the second call's role, text, hidden flag or
environment readings are; and the number of MESSAGE entries carrying the
id after an insert is the previous number if one already existed and one
otherwise, so at most one MESSAGE entry exists per unique id. -/
theorem insertMessage_idempotent (prev : List TranscriptItem)
    (itemId : String) (role1 text1 : String) (hid1 : Bool) (ts1 : String)
    (ms1 : Nat) (role2 text2 : String) (hid2 : Bool) (ts2 : String)
    (ms2 : Nat) :
    (addTranscriptMessage (addTranscriptMessage prev itemId role1 text1 hid1 ts1 ms1).1
        itemId role2 text2 hid2 ts2 ms2).1
      = (addTranscriptMessage prev itemId role1 text1 hid1 ts1 ms1).1 ∧
    ((addTranscriptMessage prev itemId role1 text1 hid1 ts1 ms1).1.filter
        (isMessageWithId itemId)).length
      = max ((prev.filter (isMessageWithId itemId)).length) 1 := by
  by_cases hdup : prev.any (isMessageWithId itemId)
  · have h1 : (addTranscriptMessage prev itemId role1 text1 hid1 ts1 ms1).1 = prev := by
      simp [addTranscriptMessage, hdup]
    obtain ⟨x, hx, hpx⟩ := List.any_eq_true.mp hdup
    have hpos : 0 < (prev.filter (isMessageWithId itemId)).length :=
      List.length_pos_of_mem (List.mem_filter.mpr ⟨hx, hpx⟩)
    constructor
    · rw [h1]
      simp [addTranscriptMessage, hdup]
    · rw [h1]
      exact (Nat.max_eq_left hpos).symm
  · have hnew : isMessageWithId itemId
        (newMessageItem itemId role1 text1 hid1 ts1 ms1) = true := by
      simp [isMessageWithId, newMessageItem]
    have h1 : (addTranscriptMessage prev itemId role1 text1 hid1 ts1 ms1).1
        = prev ++ [newMessageItem itemId role1 text1 hid1 ts1 ms1] := by
      simp [addTranscriptMessage, hdup]
    have hfilter : prev.filter (isMessageWithId itemId) = [] :=
      List.filter_eq_nil_iff.mpr (fun a ha hpa =>
        (List.any_eq_false.mp (Bool.eq_false_iff.mpr hdup) a ha) hpa)
    have hany : (prev ++ [newMessageItem itemId role1 text1 hid1 ts1 ms1]).any
        (isMessageWithId itemId) = true := by
      rw [List.any_append]
      simp [hnew]
    constructor
    · rw [h1]
      simp [addTranscriptMessage, hany]
    · rw [h1, List.filter_append, hfilter]
      simp [hnew]

/-- C8 counterexample: an append delta for an id with no MESSAGE entry
leaves the transcript unchanged AND emits no console output at all — the
claimed error log does not happen; the condition is silently dropped by
updateTranscriptMessage. -/
theorem appendDelta_unknown_id_not_logged :
    updateTranscriptMessage [sampleMsg] "missing-id" "hello" true
      = ([sampleMsg], []) := by decide

/-- C8 amended: for every call of appendDelta (updateTranscriptMessage
with append = true) with an id for which no MESSAGE entry exists, the
transcript state is unchanged and no log is emitted by
updateTranscriptMessage: the condition is silently dropped. -/
theorem appendDelta_unknown_id_silent (items : List TranscriptItem)
    (itemId : String) (text : String)
    (hunknown : ∀ it ∈ items, isMessageWithId itemId it = false) :
    updateTranscriptMessage items itemId text true = (items, []) := by
  unfold updateTranscriptMessage
  have hmap : ∀ it ∈ items, updateMessageItem itemId text true it = it := by
    intro it hit
    unfold updateMessageItem
    rw [if_neg]
    have := hunknown it hit
    unfold isMessageWithId at this
    simp [this]
  rw [List.map_congr_left hmap, List.map_id']

theorem appendDelta_unknown_id_silent_witness :
    updateTranscriptMessage [sampleMsg] "other-id" "hello" true
      = ([sampleMsg], []) :=
  appendDelta_unknown_id_silent [sampleMsg] "other-id" "hello" (by decide)

/-- C9 counterexample: for material_type EMT conduit, quantity 100,
units ft and no specifications or project info, validateMaterialOrder
returns an empty warnings list — the multiples-of-10 text is not a
warning, so the claim that a warning suggests ordering in multiples of
10 feet fails at this input. -/
theorem validateMaterialOrder_emt_no_warning :
    (validateMaterialOrder
      (order100 "EMT conduit" "ft")).validation_result.warnings = [] := by decide

/-- C9 amended: for every material type containing emt (per the code's
lower-cased containment test) ordered with quantity 100 and no
specifications or project info, validateMaterialOrder returns
isValid = false, missing fields including delivery address and delivery
date, and a suggestion (in the suggestions list, not the warnings list,
which stays empty) recommending ordering EMT conduit in multiples of
10 feet. -/
theorem validateMaterialOrder_emt_scenario (mt units : String)
    (hemt : includesStr (lowerStr mt) "emt" = true) :
    (validateMaterialOrder (order100 mt units)).validation_result.isValid = false ∧
    "delivery address" ∈ (validateMaterialOrder (order100 mt units)).validation_result.missing_fields ∧
    "delivery date" ∈ (validateMaterialOrder (order100 mt units)).validation_result.missing_fields ∧
    "EMT conduit is sold in 10-foot lengths. Consider ordering in multiples of 10."
      ∈ (validateMaterialOrder (order100 mt units)).validation_result.suggestions ∧
    (validateMaterialOrder (order100 mt units)).validation_result.warnings = [] := by
  by_cases hwire : includesStr (lowerStr mt) "wire" = true
  · simp [validateMaterialOrder, order100, hemt, hwire]
  · simp [validateMaterialOrder, order100, hemt, hwire]

theorem validateMaterialOrder_emt_scenario_witness :
    (validateMaterialOrder (order100 "EMT conduit" "ft")).validation_result.isValid = false ∧
    "delivery address" ∈ (validateMaterialOrder (order100 "EMT conduit" "ft")).validation_result.missing_fields ∧
    "delivery date" ∈ (validateMaterialOrder (order100 "EMT conduit" "ft")).validation_result.missing_fields ∧
    "EMT conduit is sold in 10-foot lengths. Consider ordering in multiples of 10."
      ∈ (validateMaterialOrder (order100 "EMT conduit" "ft")).validation_result.suggestions ∧
    (validateMaterialOrder (order100 "EMT conduit" "ft")).validation_result.warnings = [] :=
  validateMaterialOrder_emt_scenario "EMT conduit" "ft" (by decide)

/-- C6: on a successfully parsed classification the guardrail tripwire
triggers exactly when the category differs from NONE; on a transport or
parse failure the execute method still resolves, with the tripwire not
triggered and an outputInfo error marker that is distinct from every
successful classification, NONE included. -/
theorem guardrail_tripwire_fail_open (companyName : String)
    (agentOutput : String) (fetchResult : ClassifierFetch) :
    (∀ out, fetchResult = ClassifierFetch.parsed out →
      ((moderationGuardrailExecute companyName agentOutput fetchResult).tripwireTriggered
          = true
        ↔ out.moderationCategory ≠ "NONE")) ∧
    ((fetchResult = ClassifierFetch.notOk ∨
        fetchResult = ClassifierFetch.parseFailure) →
      (moderationGuardrailExecute companyName agentOutput fetchResult).tripwireTriggered
          = false ∧
      (moderationGuardrailExecute companyName agentOutput fetchResult).outputInfo
          = GuardrailOutputInfo.guardrailFailed ∧
      ∀ out,
        (moderationGuardrailExecute companyName agentOutput fetchResult).outputInfo
          ≠ GuardrailOutputInfo.classification out) := by
  cases fetchResult with
  | notOk =>
    refine ⟨fun out h => by simp at h, fun _ => ⟨rfl, rfl, fun out h => by
      simp [moderationGuardrailExecute, runGuardrailClassifier] at h⟩⟩
  | parseFailure =>
    refine ⟨fun out h => by simp at h, fun _ => ⟨rfl, rfl, fun out h => by
      simp [moderationGuardrailExecute, runGuardrailClassifier] at h⟩⟩
  | parsed res =>
    refine ⟨fun out h => ?_, fun h => by simp at h⟩
    have hres : res = out := by injection h
    subst hres
    simp [moderationGuardrailExecute, runGuardrailClassifier, bne_iff_ne]

theorem guardrail_tripwire_fail_open_witness :
    ((moderationGuardrailExecute "Kojo Technologies" "hello"
        (ClassifierFetch.parsed
          { moderationRationale := "fine", moderationCategory := "NONE" })).tripwireTriggered
        = true
      ↔ ({ moderationRationale := "fine",
           moderationCategory := "NONE" : GuardrailOutput }).moderationCategory ≠ "NONE") ∧
    (moderationGuardrailExecute "Kojo Technologies" "hello"
        ClassifierFetch.notOk).tripwireTriggered = false :=
  ⟨(guardrail_tripwire_fail_open "Kojo Technologies" "hello"
      (ClassifierFetch.parsed
        { moderationRationale := "fine", moderationCategory := "NONE" })).1
      _ rfl,
    ((guardrail_tripwire_fail_open "Kojo Technologies" "hello"
      ClassifierFetch.notOk).2 (Or.inl rfl)).1⟩

/-- C10: every Transcript Store operation is monotone on the entry list:
the two add operations leave the existing list as a prefix and append at
most one entry (exactly one for breadcrumbs), and the three update
operations keep the length and leave every entry whose itemId differs
from the given id unchanged; no operation removes an entry. -/
theorem transcript_ops_monotone (items : List TranscriptItem)
    (itemId : String) (role : String) (text : String) (hidden : Bool)
    (ts : String) (nowMs : Nat) (bcTitle : String) (payload : Option String)
    (uuid : String) (newText : String) (append : Bool)
    (patch : TranscriptItemPatch) :
    ((addTranscriptMessage items itemId role text hidden ts nowMs).1 = items ∨
      ∃ x, (addTranscriptMessage items itemId role text hidden ts nowMs).1
        = items ++ [x]) ∧
    (∃ x, (addTranscriptBreadcrumb items bcTitle payload uuid ts nowMs).1
      = items ++ [x]) ∧
    ((updateTranscriptMessage items itemId newText append).1.length
        = items.length ∧
      ∀ (k : Nat) (x : TranscriptItem), items[k]? = some x → x.itemId ≠ itemId →
        (updateTranscriptMessage items itemId newText append).1[k]? = some x) ∧
    ((updateTranscriptItem items itemId patch).1.length = items.length ∧
      ∀ (k : Nat) (x : TranscriptItem), items[k]? = some x → x.itemId ≠ itemId →
        (updateTranscriptItem items itemId patch).1[k]? = some x) ∧
    ((toggleTranscriptItemExpand items itemId).1.length = items.length ∧
      ∀ (k : Nat) (x : TranscriptItem), items[k]? = some x → x.itemId ≠ itemId →
        (toggleTranscriptItemExpand items itemId).1[k]? = some x) := by
  refine ⟨?_, ?_, ⟨?_, ?_⟩, ⟨?_, ?_⟩, ⟨?_, ?_⟩⟩
  · by_cases h : items.any (isMessageWithId itemId)
    · exact Or.inl (by simp [addTranscriptMessage, h])
    · exact Or.inr ⟨newMessageItem itemId role text hidden ts nowMs,
        by simp [addTranscriptMessage, h]⟩
  · exact ⟨_, rfl⟩
  · simp [updateTranscriptMessage]
  · intro k x hk hne
    unfold updateTranscriptMessage
    rw [List.getElem?_map, hk, Option.map_some',
      updateMessageItem_of_ne _ _ _ _ hne]
  · simp [updateTranscriptItem]
  · intro k x hk hne
    unfold updateTranscriptItem
    rw [List.getElem?_map, hk, Option.map_some', patchItem_of_ne _ _ _ hne]
  · simp [toggleTranscriptItemExpand]
  · intro k x hk hne
    unfold toggleTranscriptItemExpand
    rw [List.getElem?_map, hk, Option.map_some', toggleItem_of_ne _ _ hne]

theorem transcript_ops_monotone_witness :
    (updateTranscriptMessage [sampleMsg] "other-id" "x" true).1[0]?
      = some sampleMsg :=
  (transcript_ops_monotone [sampleMsg] "other-id" "r" "t" false "ts" 0 "b"
      none "u" "x" true {}).2.2.1.2 0 sampleMsg rfl (by decide)

theorem mkFnCallResponse_error (name : String) (callId : String)
    (arguments : String) :
    (mkFnCallResponse name callId arguments).error = false := rfl

theorem handleToolCallsAux_error (calls : List (String × String × String))
    (tailResp : SupResponse) (rest : List SupResponse)
    (herr : tailResp.error = true) :
    handleToolCallsAux
        ((calls.map fun c => mkFnCallResponse c.1 c.2.1 c.2.2) ++ tailResp :: rest)
      = some (Except.error "Something went wrong.") := by
  induction calls with
  | nil =>
    simp only [List.map_nil, List.nil_append]
    unfold handleToolCallsAux
    simp [herr]
  | cons c cs ih =>
    simp only [List.map_cons, List.cons_append]
    unfold handleToolCallsAux
    simp only [mkFnCallResponse] at ih ⊢
    simp [isFunctionCall, dispatchesOf, ih]

theorem handleToolCallsAux_ok (calls : List (String × String × String))
    (tailResp : SupResponse) (rest : List SupResponse)
    (herr : tailResp.error = false)
    (hfc : tailResp.output.filter isFunctionCall = []) :
    handleToolCallsAux
        ((calls.map fun c => mkFnCallResponse c.1 c.2.1 c.2.2) ++ tailResp :: rest)
      = some (Except.ok (finalTextOf tailResp.output,
          calls.map fun c => (c.1, getToolResponse c.1))) := by
  induction calls with
  | nil =>
    simp only [List.map_nil, List.nil_append]
    unfold handleToolCallsAux
    simp [herr, hfc]
  | cons c cs ih =>
    simp only [List.map_cons, List.cons_append]
    unfold handleToolCallsAux
    simp only [mkFnCallResponse] at ih ⊢
    simp [isFunctionCall, dispatchesOf, ih]

/-- C1: for a script of N single-function-call responses followed by one
final response with no function calls, the escalation loop terminates
and returns the final response's concatenated text (output_text parts
joined per message, messages joined with newlines), having executed
exactly the N local tool dispatches via getToolResponse, in the order
the function calls were returned. -/
theorem supervisor_loop_termination (calls : List (String × String × String))
    (final : SupResponse) (herr : final.error = false)
    (hfc : final.output.filter isFunctionCall = [])
    (first : SupResponse) (rest : List SupResponse)
    (hscript : first :: rest
      = (calls.map fun c => mkFnCallResponse c.1 c.2.1 c.2.2) ++ [final]) :
    handleToolCalls first rest
      = some (Except.ok (finalTextOf final.output,
          calls.map fun c => (c.1, getToolResponse c.1))) := by
  unfold handleToolCalls
  rw [hscript]
  exact handleToolCallsAux_ok calls final [] herr hfc

theorem supervisor_loop_termination_witness :
    handleToolCalls (mkFnCallResponse "lookupProcurementPolicy" "call-1" "")
      [{ error := false,
         output := [OutputItem.message [{ type := "output_text", text := "Hello" }]] }]
      = some (Except.ok ("Hello",
          [("lookupProcurementPolicy", ToolRes.policyDocs)])) := by
  have h := supervisor_loop_termination
    [("lookupProcurementPolicy", "call-1", "")]
    { error := false,
      output := [OutputItem.message [{ type := "output_text", text := "Hello" }]] }
    rfl rfl
    (mkFnCallResponse "lookupProcurementPolicy" "call-1" "")
    [{ error := false,
       output := [OutputItem.message [{ type := "output_text", text := "Hello" }]] }]
    rfl
  rw [h]
  rfl

/-- C7: the escalation tool resolves to the structured error marker if
any scripted response carries the endpoint's error marker at the initial
request or at any loop iteration, and otherwise resolves to the final
textual answer: it always resolves to one of the two shapes. -/
theorem supervisor_escalation_error_handling
    (calls : List (String × String × String)) (tailResp : SupResponse)
    (rest : List SupResponse) :
    (tailResp.error = true →
      getNextResponseFromSupervisor
          ((calls.map fun c => mkFnCallResponse c.1 c.2.1 c.2.2) ++ tailResp :: rest)
        = some SupervisorResult.errorResult) ∧
    (tailResp.error = false → tailResp.output.filter isFunctionCall = [] →
      getNextResponseFromSupervisor
          ((calls.map fun c => mkFnCallResponse c.1 c.2.1 c.2.2) ++ tailResp :: rest)
        = some (SupervisorResult.nextResponse (finalTextOf tailResp.output))) := by
  constructor
  · intro herr
    cases calls with
    | nil =>
      simp only [List.map_nil, List.nil_append]
      simp only [getNextResponseFromSupervisor]
      simp [herr]
    | cons c cs =>
      have haux := handleToolCallsAux_error (c :: cs) tailResp rest herr
      simp only [List.map_cons, List.cons_append] at haux ⊢
      simp only [getNextResponseFromSupervisor, handleToolCalls]
      rw [haux]
      simp [mkFnCallResponse_error]
  · intro herr hfc
    cases calls with
    | nil =>
      have haux := handleToolCallsAux_ok [] tailResp rest herr hfc
      simp only [List.map_nil, List.nil_append] at haux ⊢
      simp only [getNextResponseFromSupervisor, handleToolCalls]
      rw [haux]
      simp [herr]
    | cons c cs =>
      have haux := handleToolCallsAux_ok (c :: cs) tailResp rest herr hfc
      simp only [List.map_cons, List.cons_append] at haux ⊢
      simp only [getNextResponseFromSupervisor, handleToolCalls]
      rw [haux]
      simp [mkFnCallResponse_error]

theorem supervisor_escalation_error_handling_witness :
    getNextResponseFromSupervisor [{ error := true, output := [] }]
      = some SupervisorResult.errorResult :=
  (supervisor_escalation_error_handling [] { error := true, output := [] } []).1
    rfl

theorem isMessageWithId_updateMessageItem (id1 : String) (id2 : String)
    (newText : String) (append : Bool) (x : TranscriptItem) :
    isMessageWithId id2 (updateMessageItem id1 newText append x)
      = isMessageWithId id2 x := by
  unfold isMessageWithId
  rw [updateMessageItem_itemId, updateMessageItem_type]

theorem isMessageWithId_patchItem (id1 : String) (id2 : String)
    (patch : TranscriptItemPatch) (x : TranscriptItem) :
    isMessageWithId id2 (patchItem id1 patch x) = isMessageWithId id2 x := by
  unfold isMessageWithId
  rw [patchItem_itemId, patchItem_type]

theorem isMessageWithId_spec (itemId : String) (x : TranscriptItem)
    (h : isMessageWithId itemId x = true) :
    x.itemId = itemId ∧ x.type = "MESSAGE" := by
  unfold isMessageWithId at h
  rw [Bool.and_eq_true] at h
  exact ⟨beq_iff_eq.mp h.1, beq_iff_eq.mp h.2⟩

theorem updateMessageItem_status (itemId : String) (newText : String)
    (append : Bool) (x : TranscriptItem) :
    (updateMessageItem itemId newText append x).status = x.status := by
  unfold updateMessageItem; split <;> rfl

/-- C3: for a MESSAGE entry present in the transcript, any sequence of
delta/insert operations whose only operations addressing its id are the
appended deltas leaves the entry's text equal to its initial text with
all its delta fragments concatenated in order, regardless of
interleaved operations on other ids. -/
theorem delta_accumulation (ops : List TranscriptOp)
    (items : List TranscriptItem) (itemId : String) (e0 : TranscriptItem)
    (t0 : String) (hfind : findMessage items itemId = some e0)
    (htitle : e0.title = some t0)
    (hins : ∀ op ∈ ops, insertsOn itemId op = false) :
    ∃ e1, findMessage (applyTranscriptOps items ops) itemId = some e1 ∧
      e1.title = some (t0 ++ joinAll (deltasFor itemId ops)) := by
  induction ops generalizing items e0 t0 with
  | nil =>
    refine ⟨e0, hfind, ?_⟩
    rw [htitle]
    simp [deltasFor, joinAll, String.append_empty]
  | cons op ops' ih =>
    have hins' : ∀ o ∈ ops', insertsOn itemId o = false :=
      fun o ho => hins o (List.mem_cons_of_mem _ ho)
    have hstep : applyTranscriptOps items (op :: ops')
        = applyTranscriptOps (applyTranscriptOp items op) ops' := rfl
    rw [hstep]
    cases op with
    | delta i f =>
      have hcomm : findMessage ((updateTranscriptMessage items i f true).1) itemId
          = (findMessage items itemId).map (updateMessageItem i f true) := by
        unfold updateTranscriptMessage findMessage
        exact find?_map_pres _ _
          (fun x => isMessageWithId_updateMessageItem i itemId f true x) items
      by_cases hi : (i == itemId) = true
      · have hieq : i = itemId := beq_iff_eq.mp hi
        subst hieq
        have hp0 : isMessageWithId i e0 = true := List.find?_some hfind
        have hfind1 : findMessage ((updateTranscriptMessage items i f true).1) i
            = some (updateMessageItem i f true e0) := by
          rw [hcomm, hfind, Option.map_some']
        have htitle1 : (updateMessageItem i f true e0).title = some (t0 ++ f) := by
          rw [updateMessageItem_of_match i f true e0 hp0]
          simp [htitle]
        obtain ⟨e1, hfe, hte⟩ := ih _ _ _ hfind1 htitle1 hins'
        refine ⟨e1, hfe, ?_⟩
        rw [hte]
        simp [deltasFor, joinAll, List.filterMap_cons, String.append_assoc]
      · have he0 := isMessageWithId_spec itemId e0 (List.find?_some hfind)
        have hne : e0.itemId ≠ i := by
          rw [he0.1]
          intro hh
          exact hi (beq_iff_eq.mpr hh.symm)
        have hfind1 : findMessage ((updateTranscriptMessage items i f true).1) itemId
            = some e0 := by
          rw [hcomm, hfind, Option.map_some', updateMessageItem_of_ne i f true e0 hne]
        obtain ⟨e1, hfe, hte⟩ := ih _ _ _ hfind1 htitle hins'
        refine ⟨e1, hfe, ?_⟩
        rw [hte]
        have hine : i ≠ itemId := fun hh => hi (beq_iff_eq.mpr hh)
        simp [deltasFor, List.filterMap_cons, hine]
    | insert i role text hidden ts ms =>
      have hins0 : insertsOn itemId (TranscriptOp.insert i role text hidden ts ms)
          = false := hins _ (List.mem_cons_self _ _)
      have hibeq : (i == itemId) = false := by
        unfold insertsOn at hins0
        exact hins0
      by_cases hdup : items.any (isMessageWithId i)
      · have hst : applyTranscriptOp items
            (TranscriptOp.insert i role text hidden ts ms) = items := by
          simp [applyTranscriptOp, addTranscriptMessage, hdup]
        rw [hst]
        obtain ⟨e1, hfe, hte⟩ := ih _ _ _ hfind htitle hins'
        refine ⟨e1, hfe, ?_⟩
        rw [hte]
        simp [deltasFor, List.filterMap_cons]
      · have hst : applyTranscriptOp items
            (TranscriptOp.insert i role text hidden ts ms)
            = items ++ [newMessageItem i role text hidden ts ms] := by
          simp [applyTranscriptOp, addTranscriptMessage, hdup]
        rw [hst]
        have hnofm : isMessageWithId itemId
            (newMessageItem i role text hidden ts ms) = false := by
          simp [isMessageWithId, newMessageItem, hibeq]
        have hfind1 : findMessage
            (items ++ [newMessageItem i role text hidden ts ms]) itemId
            = some e0 := by
          unfold findMessage at hfind ⊢
          rw [find?_append_of_none _ _ _ hnofm]
          exact hfind
        obtain ⟨e1, hfe, hte⟩ := ih _ _ _ hfind1 htitle hins'
        refine ⟨e1, hfe, ?_⟩
        rw [hte]
        simp [deltasFor, List.filterMap_cons]

theorem delta_accumulation_witness :
    ∃ e1, findMessage
        (applyTranscriptOps [sampleMsg]
          [TranscriptOp.delta "item-1" " there",
           TranscriptOp.insert "other" "user" "x" false "ts" 3,
           TranscriptOp.delta "item-1" "!"]) "item-1" = some e1 ∧
      e1.title = some ("hi" ++ joinAll (deltasFor "item-1"
        [TranscriptOp.delta "item-1" " there",
         TranscriptOp.insert "other" "user" "x" false "ts" 3,
         TranscriptOp.delta "item-1" "!"])) :=
  delta_accumulation
    [TranscriptOp.delta "item-1" " there",
     TranscriptOp.insert "other" "user" "x" false "ts" 3,
     TranscriptOp.delta "item-1" "!"]
    [sampleMsg] "item-1" sampleMsg "hi" (by decide) (by decide) (by decide)

theorem findMessage_updateTranscriptMessage (items : List TranscriptItem)
    (id1 : String) (id2 : String) (txt : String) (app : Bool) :
    findMessage ((updateTranscriptMessage items id1 txt app).1) id2
      = (findMessage items id2).map (updateMessageItem id1 txt app) := by
  unfold updateTranscriptMessage findMessage
  exact find?_map_pres _ _
    (fun x => isMessageWithId_updateMessageItem id1 id2 txt app x) items

theorem findMessage_updateTranscriptItem (items : List TranscriptItem)
    (id1 : String) (id2 : String) (patch : TranscriptItemPatch) :
    findMessage ((updateTranscriptItem items id1 patch).1) id2
      = (findMessage items id2).map (patchItem id1 patch) := by
  unfold updateTranscriptItem findMessage
  exact find?_map_pres _ _
    (fun x => isMessageWithId_patchItem id1 id2 patch x) items

theorem findItem_updateTranscriptMessage (items : List TranscriptItem)
    (id1 : String) (id2 : String) (txt : String) (app : Bool) :
    findItem ((updateTranscriptMessage items id1 txt app).1) id2
      = (findItem items id2).map (updateMessageItem id1 txt app) := by
  unfold updateTranscriptMessage findItem
  exact find?_map_pres _ _
    (fun x => by rw [updateMessageItem_itemId]) items

theorem findItem_updateTranscriptItem (items : List TranscriptItem)
    (id1 : String) (id2 : String) (patch : TranscriptItemPatch) :
    findItem ((updateTranscriptItem items id1 patch).1) id2
      = (findItem items id2).map (patchItem id1 patch) := by
  unfold updateTranscriptItem findItem
  exact find?_map_pres _ _
    (fun x => by rw [patchItem_itemId]) items

theorem applyPatch_itemId (x : TranscriptItem) (patch : TranscriptItemPatch) :
    (applyPatch x patch).itemId = x.itemId := rfl

/-- C4: finalizing a present MESSAGE entry with an absent or empty final
transcript or with a single newline stores the inaudible placeholder as
its text and sets its status to DONE; the stored text is never the empty
string. -/
theorem finalize_empty_rule (items : List TranscriptItem) (itemId : String)
    (transcript : Option String) (e0 : TranscriptItem)
    (hid : itemId ≠ "")
    (hfind : findMessage items itemId = some e0)
    (hempty : transcript = none ∨ transcript = some "" ∨ transcript = some "\n") :
    ∃ e1, findMessage (handleTranscriptionCompleted items itemId transcript) itemId
        = some e1 ∧
      e1.title = some "[inaudible]" ∧ e1.status = "DONE" ∧
      e1.title ≠ some "" := by
  have hspec := isMessageWithId_spec itemId e0 (List.find?_some hfind)
  have hbeq0 : (itemId == "") = false := beq_eq_false_iff_ne.mpr hid
  have hcond : (transcript = none || transcript = some ""
      || transcript = some "\n") = true := by
    rcases hempty with h | h | h <;> subst h <;> simp
  unfold handleTranscriptionCompleted
  simp only [hcond, hbeq0, if_true, Bool.false_eq_true, if_false]
  cases hfi : findItem items itemId with
  | none =>
    dsimp only
    refine ⟨patchItem itemId { status := some "DONE" }
        (updateMessageItem itemId "[inaudible]" false e0), ?_, ?_, ?_, ?_⟩
    · rw [findMessage_updateTranscriptItem, findMessage_updateTranscriptMessage,
        hfind, Option.map_some', Option.map_some']
    · rw [patchItem_title,
        updateMessageItem_of_match _ _ _ _ (List.find?_some hfind)]
      simp
    · rw [patchItem_of_eq _ _ _ (by rw [updateMessageItem_itemId, hspec.1])]
      simp [applyPatch]
    · rw [patchItem_title,
        updateMessageItem_of_match _ _ _ _ (List.find?_some hfind)]
      simp
  | some it =>
    dsimp only
    by_cases hc : (it.guardrailResult.map (·.status)) = some "IN_PROGRESS"
    · rw [if_pos hc]
      refine ⟨patchItem itemId
          { guardrailResult :=
              some { status := "DONE", category := "NONE",
                     rationale := "", testText := none } }
          (patchItem itemId { status := some "DONE" }
            (updateMessageItem itemId "[inaudible]" false e0)), ?_, ?_, ?_, ?_⟩
      · rw [findMessage_updateTranscriptItem, findMessage_updateTranscriptItem,
          findMessage_updateTranscriptMessage, hfind, Option.map_some',
          Option.map_some', Option.map_some']
      · rw [patchItem_title, patchItem_title,
          updateMessageItem_of_match _ _ _ _ (List.find?_some hfind)]
        simp
      · rw [patchItem_of_eq _ _ _ (by
            rw [patchItem_itemId, updateMessageItem_itemId, hspec.1]),
          patchItem_of_eq _ _ _ (by rw [updateMessageItem_itemId, hspec.1])]
        simp [applyPatch]
      · rw [patchItem_title, patchItem_title,
          updateMessageItem_of_match _ _ _ _ (List.find?_some hfind)]
        simp
    · rw [if_neg hc]
      refine ⟨patchItem itemId { status := some "DONE" }
          (updateMessageItem itemId "[inaudible]" false e0), ?_, ?_, ?_, ?_⟩
      · rw [findMessage_updateTranscriptItem, findMessage_updateTranscriptMessage,
          hfind, Option.map_some', Option.map_some']
      · rw [patchItem_title,
          updateMessageItem_of_match _ _ _ _ (List.find?_some hfind)]
        simp
      · rw [patchItem_of_eq _ _ _ (by rw [updateMessageItem_itemId, hspec.1])]
        simp [applyPatch]
      · rw [patchItem_title,
          updateMessageItem_of_match _ _ _ _ (List.find?_some hfind)]
        simp

theorem finalize_empty_rule_witness :
    ∃ e1, findMessage
        (handleTranscriptionCompleted [sampleMsg] "item-1" (some "\n")) "item-1"
        = some e1 ∧
      e1.title = some "[inaudible]" ∧ e1.status = "DONE" ∧
      e1.title ≠ some "" :=
  finalize_empty_rule [sampleMsg] "item-1" (some "\n") sampleMsg
    (by decide) (by decide) (Or.inr (Or.inr rfl))

/-- C5: if the entry the finalize handler observes for an id carries a
guardrailResult whose status is IN_PROGRESS, then after the handler runs
the entry's guardrailResult is DONE with category NONE: finalize never
leaves a pending guardrail annotation behind. -/
theorem guardrail_race_safety (items : List TranscriptItem) (itemId : String)
    (transcript : Option String) (e0 : TranscriptItem) (gr : GuardrailResultApp)
    (hid : itemId ≠ "")
    (hfind : findItem items itemId = some e0)
    (hgr : e0.guardrailResult = some gr)
    (hst : gr.status = "IN_PROGRESS") :
    ∃ e1, findItem (handleTranscriptionCompleted items itemId transcript) itemId
        = some e1 ∧
      e1.guardrailResult
        = some { status := "DONE", category := "NONE", rationale := "",
                 testText := none } := by
  have hbeq0 : (itemId == "") = false := beq_eq_false_iff_ne.mpr hid
  have he0id : (e0.itemId == itemId) = true := by
    have h := hfind
    unfold findItem at h
    have h2 := List.find?_some h
    exact h2
  have he0id' : e0.itemId = itemId := beq_iff_eq.mp he0id
  unfold handleTranscriptionCompleted
  simp only [hbeq0, Bool.false_eq_true, if_false]
  rw [hfind]
  dsimp only
  rw [if_pos (by rw [hgr, Option.map_some', hst])]
  refine ⟨patchItem itemId
      { guardrailResult :=
          some { status := "DONE", category := "NONE",
                 rationale := "", testText := none } }
      (patchItem itemId { status := some "DONE" }
        (updateMessageItem itemId
          (if transcript = none || transcript = some ""
              || transcript = some "\n" then "[inaudible]"
            else transcript.getD "") false e0)), ?_, ?_⟩
  · rw [findItem_updateTranscriptItem, findItem_updateTranscriptItem,
      findItem_updateTranscriptMessage, hfind, Option.map_some',
      Option.map_some', Option.map_some']
  · rw [patchItem_of_eq _ _ _ (by
        rw [patchItem_itemId, updateMessageItem_itemId, he0id'])]
    rfl

theorem guardrail_race_safety_witness :
    ∃ e1, findItem
        (handleTranscriptionCompleted [samplePendingMsg] "item-2" (some "fine"))
        "item-2" = some e1 ∧
      e1.guardrailResult
        = some { status := "DONE", category := "NONE", rationale := "",
                 testText := none } :=
  guardrail_race_safety [samplePendingMsg] "item-2" (some "fine")
    samplePendingMsg
    { status := "IN_PROGRESS", category := "NONE", rationale := "",
      testText := none }
    (by decide) (by decide) (by decide) (by decide)
